import Mathlib

/-!
Shallow embedding of `src/src/cargo/sources/registry/ipfs.rs`: the
`IPFSRegistry` backend of the `RegistryData` trait (operations `config`,
`update_index`, `download`).  External effects (the cache store's locked
file opens, the `ipget` content fetcher, shell status messages, file
reads/seeks) are modelled by an explicit environment describing each
external observation the code makes, in program order; the SHA-256
primitive is an abstract function parameter, since the claims depend only
on it being a function of the hashed bytes.
-/

/-- Modelled from the spec: a `PackageId` is the immutable pair
(name, version); missing from `src/` (it lives in cargo's `core`). -/
structure PackageId where
  name : String
  version : String
deriving DecidableEq, Repr

/-- Modelled from the spec: the human-readable identifier of a package used
in status and error messages (`{}` display of `PackageId`). -/
def pkgDisplay (pkg : PackageId) : String :=
  pkg.name ++ " v" ++ pkg.version

/-- The canonical artifact filename, `format!("{}-{}.crate", name, version)`
from `download`. -/
def crateFilename (pkg : PackageId) : String :=
  pkg.name ++ "-" ++ pkg.version ++ ".crate"

/-- Modelled from the spec: `Path::join` (paths rendered as strings). -/
def joinPath (root child : String) : String :=
  root ++ "/" ++ child

/-- The fixed read-buffer size of the digest loop: `let mut buf = [0; 64 * 1024]`. -/
def CHUNK : Nat := 64 * 1024

/-- The successive chunks produced by the read loop
`loop { let n = dst.read(&mut buf); if n == 0 break; ... }`:
each `read` fills the 64 KiB buffer with the next `min(CHUNK, remaining)`
bytes of the file, until end-of-stream. -/
def readChunks (bs : List Nat) : List (List Nat) :=
  if h : bs = [] then []
  else bs.take CHUNK :: readChunks (bs.drop CHUNK)
termination_by bs.length
decreasing_by
  have hlen : 0 < bs.length := List.length_pos.mpr h
  have hc : CHUNK = 65536 := rfl
  simp only [List.length_drop]
  omega

/-- The digest computed by the loop: `Sha256::new()` starts an empty
accumulator, `state.update(&buf[..n])` appends each chunk read, and
`state.finish()` digests the accumulated bytes.  `hash` is the abstract
SHA-256 primitive (cargo's `util::Sha256`, not in `src/`). -/
def sha256Stream (hash : List Nat → List Nat) (bs : List Nat) : List Nat :=
  hash ((readChunks bs).foldl (fun st ch => st ++ ch) [])

/-- The sixteen lowercase hex digits used by `hex::ToHex::to_hex`. -/
def HEX_CHARS : List Char := "0123456789abcdef".data

/-- Modelled from the spec: one hex digit (the `hex` crate encodes to
lowercase). -/
def hexDigit (n : Nat) : Char :=
  HEX_CHARS.getD n '0'

/-- Two lowercase hex digits for one byte. -/
def byteToHex (b : Nat) : List Char :=
  [hexDigit (b / 16 % 16), hexDigit (b % 16)]

/-- Modelled from the spec: `hex::ToHex::to_hex` — the lowercase hex
encoding of a byte string (the `hex` crate is an external dependency whose
encoding is lowercase). -/
def toHex (bs : List Nat) : String :=
  String.mk (bs.flatMap byteToHex)

/-- A locked file handle as the caller sees it: the file's byte content and
the handle's read position. -/
structure Handle where
  content : List Nat
  pos : Nat
deriving DecidableEq, Repr

/-- What the external `ipget` invocation leaves behind when the process
could be spawned: the resulting destination file content, and the process's
reported exit information (never inspected by this code). -/
structure FetchOut where
  newContent : List Nat
  success : Bool
  exitCode : Nat
deriving DecidableEq, Repr

/-- Outcome of `download`: a returned `FileLock` (`Ok`), a returned error
(`CargoResult::Err`), or a process abort (`.expect(...)` panicking). -/
inductive DlOutcome where
  | ok (h : Handle)
  | err (msg : String)
  | panicked (msg : String)
deriving DecidableEq, Repr

/-- External observations made by one `download` call, in program order.
`roOpen` is the result of `open_ro` (`none` = `Err`, `some c` = a locked
handle on a file with content `c`);  `roMetaOk`/`rwMetaOk` say whether the
`metadata()?` calls succeed;  `rwOpen` is the result of `open_rw` on the
re-check (the content may differ from the probe: a concurrent writer);
`statusOk`/`statusOk2` are the two `shell().status(...)?` calls;  `spawn`
is the `Command::output()` result (`none` = spawn failure, which
`.expect` turns into a panic);  `readOk` says whether the read loop's
`read` calls all succeed;  `seekOk` is the final `seek(SeekFrom::Start(0))?`. -/
structure DlEnv where
  roOpen : Option (List Nat)
  roMetaOk : Bool
  rwOpen : Option (List Nat)
  rwMetaOk : Bool
  statusOk : Bool
  spawn : Option FetchOut
  statusOk2 : Bool
  readOk : Bool
  seekOk : Bool
deriving DecidableEq, Repr

/-- Result of one `download` call: its outcome, the fetcher invocation it
performed (`some (source, destination)` iff `ipget` was invoked), whether
the checksum comparison was reached, and the slot file's content at return
as far as the call observed it (`none` when the call never got a handle). -/
structure DlResult where
  outcome : DlOutcome
  fetchCall : Option (String × String)
  checksumChecked : Bool
  finalSlot : Option (List Nat)
deriving DecidableEq, Repr

/-- The fresh-fetch tail of `download` (from `// Crate not there` on):
status message, `ipget` invocation, status message, digest loop, checksum
comparison, rewind.  `slot0` is the (empty) slot content at entry. -/
def downloadFresh (hash : List Nat → List Nat) (pkg : PackageId) (checksum : String)
    (ipfsPath localRoot : String) (slot0 : List Nat) (env : DlEnv) : DlResult :=
  let filename := crateFilename pkg
  let src := joinPath ipfsPath filename
  let dst := joinPath localRoot filename
  if env.statusOk then
    match env.spawn with
    | none =>
      ⟨.panicked "failed to execute process", some (src, dst), false, some slot0⟩
    | some f =>
      if env.statusOk2 then
        if env.readOk then
          if toHex (sha256Stream hash f.newContent) ≠ checksum then
            ⟨.err ("failed to verify the checksum of `" ++ pkgDisplay pkg ++ "`"),
              some (src, dst), true, some f.newContent⟩
          else if env.seekOk then
            ⟨.ok ⟨f.newContent, 0⟩, some (src, dst), true, some f.newContent⟩
          else
            ⟨.err "io error: seek", some (src, dst), true, some f.newContent⟩
        else
          ⟨.err ("failed to read `" ++ dst ++ "`"), some (src, dst), false,
            some f.newContent⟩
      else
        ⟨.err "io error: shell status", some (src, dst), false, some f.newContent⟩
  else
    ⟨.err "io error: shell status", none, false, some slot0⟩

/-- The read-write half of `download`'s cache check: `open_rw` (creating the
slot), `metadata()?`, and the post-open length re-check. -/
def downloadRW (hash : List Nat → List Nat) (pkg : PackageId) (checksum : String)
    (ipfsPath localRoot : String) (env : DlEnv) : DlResult :=
  match env.rwOpen with
  | none => ⟨.err "io error: open_rw", none, false, none⟩
  | some c =>
    if env.rwMetaOk then
      if 0 < c.length then
        ⟨.ok ⟨c, 0⟩, none, false, some c⟩
      else
        downloadFresh hash pkg checksum ipfsPath localRoot c env
    else
      ⟨.err "io error: metadata", none, false, some c⟩

/-- Shallow embedding of `IPFSRegistry::download`: read-only probe with
length check, read-write open with length re-check, then the fresh-fetch
pipeline. -/
def download (hash : List Nat → List Nat) (pkg : PackageId) (checksum : String)
    (ipfsPath localRoot : String) (env : DlEnv) : DlResult :=
  match env.roOpen with
  | some c =>
    if env.roMetaOk then
      if 0 < c.length then
        ⟨.ok ⟨c, 0⟩, none, false, some c⟩
      else
        downloadRW hash pkg checksum ipfsPath localRoot env
    else
      ⟨.err "io error: metadata", none, false, some c⟩
  | none => downloadRW hash pkg checksum ipfsPath localRoot env

/-- Outcome of `update_index`. -/
inductive UiOutcome where
  | ok
  | err (msg : String)
  | panicked (msg : String)
deriving DecidableEq, Repr

/-- External observations made by one `update_index` call: the `ipget`
spawn result, the underlying local registry's `update_index()` result
(modelled from the spec: the local store's index-load/validate routine is
not in `src/`), and whether a local index is already present (the code
never looks, which is the point of claim C5). -/
structure UiEnv where
  spawn : Option FetchOut
  localUpdate : Except String Unit
  localIndexPresent : Bool
deriving Repr

/-- Result of one `update_index` call: outcome, the fetcher invocation
performed, and whether the call delegated to the local store's
`update_index`. -/
structure UiResult where
  outcome : UiOutcome
  fetchCall : Option (String × String)
  delegated : Bool
deriving Repr

/-- Lifts the local store's `CargoResult<()>` into a `UiOutcome`. -/
def liftLocal : Except String Unit → UiOutcome
  | .ok _ => .ok
  | .error e => .err e

/-- Shallow embedding of `IPFSRegistry::update_index`: invoke `ipget` for
`ipfs_path/index` with destination `local_root/index`, then delegate to
`local_registry.update_index()`. -/
def updateIndex (ipfsPath localRoot : String) (env : UiEnv) : UiResult :=
  let src := joinPath ipfsPath "index"
  let dst := joinPath localRoot "index"
  match env.spawn with
  | none => ⟨.panicked "failed to execute process", some (src, dst), false⟩
  | some _f => ⟨liftLocal env.localUpdate, some (src, dst), true⟩

/-- Modelled from the spec: cargo's `RegistryConfig` (remote-API `dl` and
`api` endpoints), not in `src/`; `config` only ever reports its absence. -/
structure RegistryConfig where
  dl : String
  api : Option String
deriving DecidableEq, Repr

/-- The mutable registry state `config` receives (`&mut self`): the fields
of `IPFSRegistry` that the embedding tracks. -/
structure RegState where
  ipfsPath : String
  localRoot : String
deriving DecidableEq, Repr

/-- Shallow embedding of `IPFSRegistry::config`: `Ok(None)`, the state
untouched, and an empty list of performed effects. -/
def config (r : RegState) :
    Except String (Option RegistryConfig) × RegState × List String :=
  (.ok none, r, [])

/-! ### Helper lemmas about the digest stream and the hex encoding -/

theorem readChunks_flatten (bs : List Nat) : (readChunks bs).flatten = bs := by
  by_cases h : bs = []
  · rw [readChunks, dif_pos h, List.flatten_nil, h]
  · rw [readChunks, dif_neg h, List.flatten_cons,
      readChunks_flatten (bs.drop CHUNK), List.take_append_drop]
termination_by bs.length
decreasing_by
  have hlen : 0 < bs.length := List.length_pos.mpr h
  have hc : CHUNK = 65536 := rfl
  simp only [List.length_drop]
  omega

theorem foldl_append_eq_flatten (L : List (List Nat)) (acc : List Nat) :
    L.foldl (fun st ch => st ++ ch) acc = acc ++ L.flatten := by
  induction L generalizing acc with
  | nil => simp
  | cons a L ih => simp [ih, List.append_assoc]

theorem sha256Stream_eq_hash (hash : List Nat → List Nat) (bs : List Nat) :
    sha256Stream hash bs = hash bs := by
  unfold sha256Stream
  rw [foldl_append_eq_flatten, List.nil_append, readChunks_flatten]

theorem readChunks_sizes (bs : List Nat) :
    ∀ ch ∈ readChunks bs, ch ≠ [] ∧ ch.length ≤ CHUNK := by
  by_cases h : bs = []
  · rw [readChunks, dif_pos h]
    simp
  · rw [readChunks, dif_neg h]
    intro ch hch
    rcases List.mem_cons.mp hch with rfl | hmem
    · constructor
      · have hc : 0 < CHUNK := by decide
        have hlen : 0 < bs.length := List.length_pos.mpr h
        have : 0 < (bs.take CHUNK).length := by
          rw [List.length_take]
          exact lt_min hc hlen
        exact List.length_pos.mp this
      · rw [List.length_take]
        exact min_le_left _ _
    · exact readChunks_sizes (bs.drop CHUNK) ch hmem
termination_by bs.length
decreasing_by
  have hlen : 0 < bs.length := List.length_pos.mpr h
  have hc : CHUNK = 65536 := rfl
  simp only [List.length_drop]
  omega

theorem hexDigit_mem (n : Nat) : hexDigit n ∈ HEX_CHARS := by
  unfold hexDigit
  rcases Nat.lt_or_ge n 16 with h | h
  · interval_cases n <;> decide
  · have hlen : HEX_CHARS.length = 16 := rfl
    rw [List.getD_eq_default _ _ (by rw [hlen]; exact h)]
    decide

theorem toHex_data_mem (bs : List Nat) : ∀ c ∈ (toHex bs).data, c ∈ HEX_CHARS := by
  intro c hc
  rcases List.mem_flatMap.mp hc with ⟨b, _hb, hcb⟩
  rcases List.mem_cons.mp hcb with rfl | hcb2
  · exact hexDigit_mem _
  · rcases List.mem_cons.mp hcb2 with rfl | hcb3
    · exact hexDigit_mem _
    · cases hcb3

/-- The six uppercase hex digits. -/
def UPPER_HEX : List Char := ['A', 'B', 'C', 'D', 'E', 'F']

theorem toHex_ne_of_upper (bs : List Nat) (s : String) (u : Char)
    (hu : u ∈ s.data) (hupper : u ∈ UPPER_HEX) : toHex bs ≠ s := by
  intro he
  have hmem : u ∈ (toHex bs).data := by rw [he]; exact hu
  have hhex : u ∈ HEX_CHARS := toHex_data_mem bs u hmem
  have : ∀ v ∈ UPPER_HEX, v ∉ HEX_CHARS := by decide
  exact this u hupper hhex

/-! ### Claim theorems -/

/-- C7: during a fresh fetch the digest is computed by streaming the file in
fixed-size 64 KiB chunks until end-of-stream, each chunk being exactly the
bytes read (non-empty, at most 64 KiB), and their concatenation is the whole
file content, so the finished digest is the digest of the file's entire
content from offset zero. -/
theorem download_digest_streams_whole_file (hash : List Nat → List Nat) (bs : List Nat) :
    sha256Stream hash bs = hash bs ∧
    (readChunks bs).flatten = bs ∧
    ∀ ch ∈ readChunks bs, ch ≠ [] ∧ ch.length ≤ 64 * 1024 :=
  ⟨sha256Stream_eq_hash hash bs, readChunks_flatten bs, readChunks_sizes bs⟩

/-- C8: `config()` unconditionally returns success with an absent
configuration, leaves the registry state untouched, and performs no
effects (no I/O, no fetch invocation). -/
theorem config_always_ok_none (r : RegState) :
    config r = (Except.ok none, r, []) := rfl

/-- When the read-only probe misses (open fails or sees an empty file) and
the read-write re-check also sees an empty file, `download` runs the
fresh-fetch tail with the empty slot. -/
theorem download_reaches_fresh (hash : List Nat → List Nat) (pkg : PackageId)
    (checksum ipfsPath localRoot : String) (env : DlEnv)
    (hmiss : env.roOpen = none ∨ (env.roOpen = some [] ∧ env.roMetaOk = true))
    (hrw : env.rwOpen = some []) (hrwm : env.rwMetaOk = true) :
    download hash pkg checksum ipfsPath localRoot env =
      downloadFresh hash pkg checksum ipfsPath localRoot [] env := by
  rcases hmiss with hm | ⟨hm, hrom⟩ <;>
    simp [download, downloadRW, hrw, hrwm, *]

/-- On a digest/checksum mismatch the fresh-fetch tail fails with the
integrity error and leaves the fetched bytes in the slot. -/
theorem downloadFresh_mismatch (hash : List Nat → List Nat) (pkg : PackageId)
    (checksum ipfsPath localRoot : String) (env : DlEnv) (f : FetchOut)
    (hs1 : env.statusOk = true) (hsp : env.spawn = some f)
    (hs2 : env.statusOk2 = true) (hrd : env.readOk = true)
    (hne : toHex (hash f.newContent) ≠ checksum) :
    downloadFresh hash pkg checksum ipfsPath localRoot [] env =
      ⟨.err ("failed to verify the checksum of `" ++ pkgDisplay pkg ++ "`"),
        some (joinPath ipfsPath (crateFilename pkg), joinPath localRoot (crateFilename pkg)),
        true, some f.newContent⟩ := by
  simp [downloadFresh, hs1, hsp, hs2, hrd, sha256Stream_eq_hash, hne]

/-- C1: a slot non-empty at the read-only probe, or at the re-check after
the read-write open, is returned as-is: no fetcher invocation, no checksum
computation or comparison, for every expected checksum. -/
theorem download_cache_hit (hash : List Nat → List Nat) (pkg : PackageId)
    (checksum ipfsPath localRoot : String) (env : DlEnv)
    (hrom : env.roMetaOk = true) (hrwm : env.rwMetaOk = true)
    (hhit : (∃ c, env.roOpen = some c ∧ c ≠ []) ∨
      ((env.roOpen = none ∨ env.roOpen = some []) ∧
        ∃ c, env.rwOpen = some c ∧ c ≠ [])) :
    (download hash pkg checksum ipfsPath localRoot env).fetchCall = none ∧
    (download hash pkg checksum ipfsPath localRoot env).checksumChecked = false ∧
    ∃ c, c ≠ [] ∧
      (download hash pkg checksum ipfsPath localRoot env).outcome = DlOutcome.ok ⟨c, 0⟩ ∧
      (env.roOpen = some c ∨ env.rwOpen = some c) := by
  rcases hhit with ⟨c, hc, hne⟩ | ⟨hmiss, c, hc, hne⟩
  · have hlen : 0 < c.length := List.length_pos.mpr hne
    refine ⟨?_, ?_, c, hne, ?_, Or.inl hc⟩ <;>
      simp [download, hc, hrom, hlen]
  · have hlen : 0 < c.length := List.length_pos.mpr hne
    have hdl : download hash pkg checksum ipfsPath localRoot env =
        downloadRW hash pkg checksum ipfsPath localRoot env := by
      rcases hmiss with hm | hm <;> simp [download, hm, hrom]
    refine ⟨?_, ?_, c, hne, ?_, Or.inr hc⟩ <;>
      rw [hdl] <;> simp [downloadRW, hc, hrwm, hlen]

/-- C2: a fresh fetch whose fetched bytes hash to the expected checksum
succeeds, returning the handle on the fetched content seeked back to
offset 0, after having invoked the fetcher for this package. -/
theorem download_fresh_success (hash : List Nat → List Nat) (pkg : PackageId)
    (checksum ipfsPath localRoot : String) (env : DlEnv) (f : FetchOut)
    (hmiss : env.roOpen = none ∨ (env.roOpen = some [] ∧ env.roMetaOk = true))
    (hrw : env.rwOpen = some []) (hrwm : env.rwMetaOk = true)
    (hs1 : env.statusOk = true) (hsp : env.spawn = some f)
    (hs2 : env.statusOk2 = true) (hrd : env.readOk = true) (hsk : env.seekOk = true)
    (hsum : toHex (hash f.newContent) = checksum) :
    (download hash pkg checksum ipfsPath localRoot env).outcome =
      DlOutcome.ok ⟨f.newContent, 0⟩ ∧
    (download hash pkg checksum ipfsPath localRoot env).fetchCall =
      some (joinPath ipfsPath (crateFilename pkg), joinPath localRoot (crateFilename pkg)) ∧
    (download hash pkg checksum ipfsPath localRoot env).finalSlot = some f.newContent := by
  rw [download_reaches_fresh hash pkg checksum ipfsPath localRoot env hmiss hrw hrwm]
  simp [downloadFresh, hs1, hsp, hs2, hrd, hsk, sha256Stream_eq_hash, hsum]

/-- C3: a fresh fetch whose fetched bytes hash to something other than the
expected checksum fails with the integrity error naming the package, and
the slot keeps the fetched (corrupt) content: nothing is deleted or
truncated. -/
theorem download_fresh_mismatch_error (hash : List Nat → List Nat) (pkg : PackageId)
    (checksum ipfsPath localRoot : String) (env : DlEnv) (f : FetchOut)
    (hmiss : env.roOpen = none ∨ (env.roOpen = some [] ∧ env.roMetaOk = true))
    (hrw : env.rwOpen = some []) (hrwm : env.rwMetaOk = true)
    (hs1 : env.statusOk = true) (hsp : env.spawn = some f)
    (hs2 : env.statusOk2 = true) (hrd : env.readOk = true)
    (hne : toHex (hash f.newContent) ≠ checksum) :
    (download hash pkg checksum ipfsPath localRoot env).outcome =
      DlOutcome.err ("failed to verify the checksum of `" ++ pkgDisplay pkg ++ "`") ∧
    (download hash pkg checksum ipfsPath localRoot env).finalSlot = some f.newContent ∧
    (download hash pkg checksum ipfsPath localRoot env).checksumChecked = true := by
  rw [download_reaches_fresh hash pkg checksum ipfsPath localRoot env hmiss hrw hrwm,
    downloadFresh_mismatch hash pkg checksum ipfsPath localRoot env f hs1 hsp hs2 hrd hne]
  exact ⟨rfl, rfl, rfl⟩

/-- C4: a slot of zero length at both the read-only probe and the
read-write re-check never takes a cache-hit return (which would have
`fetchCall = none`): the Content Fetcher is invoked for this package. -/
theorem download_zero_length_fetches (hash : List Nat → List Nat) (pkg : PackageId)
    (checksum ipfsPath localRoot : String) (env : DlEnv)
    (hro : env.roOpen = some []) (hrom : env.roMetaOk = true)
    (hrw : env.rwOpen = some []) (hrwm : env.rwMetaOk = true)
    (hs1 : env.statusOk = true) :
    (download hash pkg checksum ipfsPath localRoot env).fetchCall =
      some (joinPath ipfsPath (crateFilename pkg), joinPath localRoot (crateFilename pkg)) := by
  rw [download_reaches_fresh hash pkg checksum ipfsPath localRoot env
    (Or.inr ⟨hro, hrom⟩) hrw hrwm]
  rcases hsp : env.spawn with _ | f
  · simp [downloadFresh, hs1, hsp]
  · by_cases hcs : toHex (sha256Stream hash f.newContent) ≠ checksum <;>
      cases hs2 : env.statusOk2 <;> cases hrd : env.readOk <;> cases hsk : env.seekOk <;>
      simp [downloadFresh, hs1, hsp, hs2, hrd, hsk, hcs]

/-- C5: `update_index` always invokes the fetcher for the index path
(remote root joined with `index`, destination the local index staging
path) before delegating to the local store's own `update_index`; the
delegated outcome is the local store's verdict, the fetch happens whether
or not a local index is present, and a spawn failure means delegation
never happened. -/
theorem update_index_fetches_then_delegates (ipfsPath localRoot : String)
    (f : FetchOut) (lu : Except String Unit) (b b' : Bool) (sp : Option FetchOut) :
    (updateIndex ipfsPath localRoot ⟨sp, lu, b⟩).fetchCall =
      some (joinPath ipfsPath "index", joinPath localRoot "index") ∧
    (updateIndex ipfsPath localRoot ⟨sp, lu, b⟩).delegated = sp.isSome ∧
    (updateIndex ipfsPath localRoot ⟨some f, lu, b⟩).outcome = liftLocal lu ∧
    (updateIndex ipfsPath localRoot ⟨none, lu, b⟩).delegated = false ∧
    updateIndex ipfsPath localRoot ⟨sp, lu, b⟩ =
      updateIndex ipfsPath localRoot ⟨sp, lu, b'⟩ := by
  rcases sp with _ | g <;> exact ⟨rfl, rfl, rfl, rfl, rfl⟩

/-- The fresh-fetch tail aborts only when the fetcher process could not be
spawned, and then with the `.expect` message. -/
theorem downloadFresh_panic (hash : List Nat → List Nat) (pkg : PackageId)
    (checksum ipfsPath localRoot : String) (slot0 : List Nat) (env : DlEnv) (m : String)
    (h : (downloadFresh hash pkg checksum ipfsPath localRoot slot0 env).outcome =
      DlOutcome.panicked m) :
    env.spawn = none ∧ m = "failed to execute process" := by
  by_cases hs1 : env.statusOk
  · rcases hsp : env.spawn with _ | f
    · refine ⟨rfl, ?_⟩
      simp [downloadFresh, hs1, hsp] at h
      exact h.symm
    · exfalso
      by_cases hcs : toHex (sha256Stream hash f.newContent) ≠ checksum <;>
        cases hs2 : env.statusOk2 <;> cases hrd : env.readOk <;>
        cases hsk : env.seekOk <;>
        simp [downloadFresh, hs1, hsp, hs2, hrd, hsk, hcs] at h
  · simp [downloadFresh, hs1] at h

/-- The read-write half aborts only when the fetcher process could not be
spawned. -/
theorem downloadRW_panic (hash : List Nat → List Nat) (pkg : PackageId)
    (checksum ipfsPath localRoot : String) (env : DlEnv) (m : String)
    (h : (downloadRW hash pkg checksum ipfsPath localRoot env).outcome =
      DlOutcome.panicked m) :
    env.spawn = none ∧ m = "failed to execute process" := by
  rcases hrw : env.rwOpen with _ | c
  · simp [downloadRW, hrw] at h
  · by_cases hrwm : env.rwMetaOk
    · by_cases hlen : 0 < c.length
      · simp [downloadRW, hrw, hrwm, hlen] at h
      · have h' : (downloadFresh hash pkg checksum ipfsPath localRoot c env).outcome =
            DlOutcome.panicked m := by
          simpa [downloadRW, hrw, hrwm, hlen] using h
        exact downloadFresh_panic hash pkg checksum ipfsPath localRoot c env m h'
    · simp [downloadRW, hrw, hrwm] at h

/-- `download` aborts only when the fetcher process could not be spawned. -/
theorem download_panic (hash : List Nat → List Nat) (pkg : PackageId)
    (checksum ipfsPath localRoot : String) (env : DlEnv) (m : String)
    (h : (download hash pkg checksum ipfsPath localRoot env).outcome =
      DlOutcome.panicked m) :
    env.spawn = none ∧ m = "failed to execute process" := by
  rcases hro : env.roOpen with _ | c
  · exact downloadRW_panic hash pkg checksum ipfsPath localRoot env m
      (by simpa [download, hro] using h)
  · by_cases hrom : env.roMetaOk
    · by_cases hlen : 0 < c.length
      · simp [download, hro, hrom, hlen] at h
      · exact downloadRW_panic hash pkg checksum ipfsPath localRoot env m
          (by simpa [download, hro, hrom, hlen] using h)
    · simp [download, hro, hrom] at h

/-- `update_index` aborts only when the fetcher process could not be
spawned; the delegated local result is otherwise returned as-is. -/
theorem updateIndex_panic (ipfsPath localRoot : String) (env : UiEnv) (m : String)
    (h : (updateIndex ipfsPath localRoot env).outcome = UiOutcome.panicked m) :
    env.spawn = none ∧ m = "failed to execute process" := by
  rcases hsp : env.spawn with _ | f
  · refine ⟨rfl, ?_⟩
    simp [updateIndex, hsp] at h
    exact h.symm
  · exfalso
    cases hl : env.localUpdate <;> simp [updateIndex, hsp, liftLocal, hl] at h

/-- C6 (amended): every failure in `download` or `update_index` is returned
to the caller as an error result, except the fetcher's reported exit
status (never inspected) and a failure to spawn the fetcher process, which
aborts via panic — an abort can only arise from a spawn failure, with the
fixed `.expect` message. -/
theorem errors_returned_except_spawn (hash : List Nat → List Nat) (pkg : PackageId)
    (checksum ipfsPath localRoot : String) (env : DlEnv) (uenv : UiEnv)
    (m m' : String) :
    ((download hash pkg checksum ipfsPath localRoot env).outcome =
        DlOutcome.panicked m →
      env.spawn = none ∧ m = "failed to execute process") ∧
    ((updateIndex ipfsPath localRoot uenv).outcome = UiOutcome.panicked m' →
      uenv.spawn = none ∧ m' = "failed to execute process") :=
  ⟨download_panic hash pkg checksum ipfsPath localRoot env m,
    updateIndex_panic ipfsPath localRoot uenv m'⟩

/-- C6 counterexample: when the fetcher process cannot be spawned, the
error is not returned to the caller — `download` aborts the process
(`.expect` panics), even though the failure is not the unchecked fetch
exit status. -/
theorem download_abort_on_spawn_failure :
    (download (fun l => l) ⟨"serde", "1.0.0"⟩ "ff" "QmRoot" "/reg"
      ⟨none, true, some [], true, true, none, true, true, true⟩).outcome =
      DlOutcome.panicked "failed to execute process" := rfl

/-- C9: the result of `download` depends only on the file content the
fetcher leaves at the destination, never on the fetcher's reported success
flag or exit code: two runs identical except for the reported status have
identical results. -/
theorem download_independent_of_fetch_status (hash : List Nat → List Nat)
    (pkg : PackageId) (checksum ipfsPath localRoot : String)
    (ro : Option (List Nat)) (rom : Bool) (rw : Option (List Nat))
    (rwm s1 s2 rd sk : Bool) (c : List Nat) (su su' : Bool) (ec ec' : Nat) :
    download hash pkg checksum ipfsPath localRoot
      ⟨ro, rom, rw, rwm, s1, some ⟨c, su, ec⟩, s2, rd, sk⟩ =
    download hash pkg checksum ipfsPath localRoot
      ⟨ro, rom, rw, rwm, s1, some ⟨c, su', ec'⟩, s2, rd, sk⟩ := by
  rcases ro with _ | c0 <;> rcases rw with _ | c1 <;> rfl

/-- C10: the checksum comparison is exact case-sensitive string equality
against the lowercase hex encoding of the digest: an expected checksum
containing an uppercase hex digit always fails the fresh-fetch comparison,
even when it matches the digest's value up to case. -/
theorem download_uppercase_checksum_fails (hash : List Nat → List Nat)
    (pkg : PackageId) (checksum ipfsPath localRoot : String) (env : DlEnv)
    (f : FetchOut)
    (hmiss : env.roOpen = none ∨ (env.roOpen = some [] ∧ env.roMetaOk = true))
    (hrw : env.rwOpen = some []) (hrwm : env.rwMetaOk = true)
    (hs1 : env.statusOk = true) (hsp : env.spawn = some f)
    (hs2 : env.statusOk2 = true) (hrd : env.readOk = true)
    (u : Char) (hu : u ∈ checksum.data) (hupper : u ∈ UPPER_HEX)
    (hval : checksum.data.map Char.toLower = (toHex (hash f.newContent)).data) :
    (download hash pkg checksum ipfsPath localRoot env).outcome =
      DlOutcome.err ("failed to verify the checksum of `" ++ pkgDisplay pkg ++ "`") ∧
    (download hash pkg checksum ipfsPath localRoot env).checksumChecked = true := by
  have hne : toHex (hash f.newContent) ≠ checksum :=
    toHex_ne_of_upper (hash f.newContent) checksum u hu hupper
  rw [download_reaches_fresh hash pkg checksum ipfsPath localRoot env hmiss hrw hrwm,
    downloadFresh_mismatch hash pkg checksum ipfsPath localRoot env f hs1 hsp hs2 hrd hne]
  exact ⟨rfl, rfl⟩

/-! ### Concrete inputs for the witnesses -/

/-- A demo package. -/
def pkgSerde : PackageId := ⟨"serde", "1.0.0"⟩

/-- A demo digest primitive (the claims hold for every `hash`). -/
def hashId : List Nat → List Nat := fun l => l

/-- A run whose read-only probe finds the one-byte file `[7]`. -/
def envHit : DlEnv := ⟨some [7], true, none, true, true, none, true, true, true⟩

/-- A run that misses the cache and fetches the one-byte file `[171]`. -/
def envFreshDemo : DlEnv :=
  ⟨none, true, some [], true, true, some ⟨[171], true, 0⟩, true, true, true⟩

/-- A run that sees a zero-length slot at both checks, then fetches. -/
def envZeroLen : DlEnv :=
  ⟨some [], true, some [], true, true, some ⟨[171], true, 0⟩, true, true, true⟩

/-- A run that reaches the fetch step and fails to spawn the fetcher. -/
def envSpawnFail : DlEnv := ⟨some [], true, some [], true, true, none, true, true, true⟩

/-- An `update_index` run that fails to spawn the fetcher. -/
def uenvSpawnFail : UiEnv := ⟨none, Except.ok (), true⟩

theorem download_cache_hit_witness :
    envHit.roMetaOk = true ∧ envHit.rwMetaOk = true ∧
    envHit.roOpen = some [7] ∧
    ((download hashId pkgSerde "badsum" "QmRoot" "/reg" envHit).fetchCall = none ∧
      (download hashId pkgSerde "badsum" "QmRoot" "/reg" envHit).checksumChecked = false ∧
      ∃ c, c ≠ [] ∧
        (download hashId pkgSerde "badsum" "QmRoot" "/reg" envHit).outcome =
          DlOutcome.ok ⟨c, 0⟩ ∧
        (envHit.roOpen = some c ∨ envHit.rwOpen = some c)) :=
  ⟨rfl, rfl, rfl,
    download_cache_hit hashId pkgSerde "badsum" "QmRoot" "/reg" envHit rfl rfl
      (Or.inl ⟨[7], rfl, by decide⟩)⟩

theorem download_fresh_success_witness :
    envFreshDemo.roOpen = none ∧
    envFreshDemo.spawn = some ⟨[171], true, 0⟩ ∧
    toHex (hashId [171]) = "ab" ∧
    ((download hashId pkgSerde "ab" "QmRoot" "/reg" envFreshDemo).outcome =
        DlOutcome.ok ⟨[171], 0⟩ ∧
      (download hashId pkgSerde "ab" "QmRoot" "/reg" envFreshDemo).fetchCall =
        some (joinPath "QmRoot" (crateFilename pkgSerde),
          joinPath "/reg" (crateFilename pkgSerde)) ∧
      (download hashId pkgSerde "ab" "QmRoot" "/reg" envFreshDemo).finalSlot =
        some [171]) :=
  ⟨rfl, rfl, by decide,
    download_fresh_success hashId pkgSerde "ab" "QmRoot" "/reg" envFreshDemo
      ⟨[171], true, 0⟩ (Or.inl rfl) rfl rfl rfl rfl rfl rfl rfl (by decide)⟩

theorem download_fresh_mismatch_error_witness :
    envFreshDemo.spawn = some ⟨[171], true, 0⟩ ∧
    toHex (hashId [171]) ≠ "00" ∧
    ((download hashId pkgSerde "00" "QmRoot" "/reg" envFreshDemo).outcome =
        DlOutcome.err ("failed to verify the checksum of `" ++ pkgDisplay pkgSerde ++ "`") ∧
      (download hashId pkgSerde "00" "QmRoot" "/reg" envFreshDemo).finalSlot =
        some [171] ∧
      (download hashId pkgSerde "00" "QmRoot" "/reg" envFreshDemo).checksumChecked =
        true) :=
  ⟨rfl, by decide,
    download_fresh_mismatch_error hashId pkgSerde "00" "QmRoot" "/reg" envFreshDemo
      ⟨[171], true, 0⟩ (Or.inl rfl) rfl rfl rfl rfl rfl rfl (by decide)⟩

theorem download_zero_length_fetches_witness :
    envZeroLen.roOpen = some [] ∧ envZeroLen.rwOpen = some [] ∧
    envZeroLen.statusOk = true ∧
    (download hashId pkgSerde "ab" "QmRoot" "/reg" envZeroLen).fetchCall =
      some (joinPath "QmRoot" (crateFilename pkgSerde),
        joinPath "/reg" (crateFilename pkgSerde)) :=
  ⟨rfl, rfl, rfl,
    download_zero_length_fetches hashId pkgSerde "ab" "QmRoot" "/reg" envZeroLen
      rfl rfl rfl rfl rfl⟩

theorem errors_returned_except_spawn_witness :
    (download hashId ⟨"foo", "0.1.0"⟩ "aa" "QmRoot" "/reg" envSpawnFail).outcome =
      DlOutcome.panicked "failed to execute process" ∧
    (updateIndex "QmRoot" "/reg" uenvSpawnFail).outcome =
      UiOutcome.panicked "failed to execute process" ∧
    (envSpawnFail.spawn = none ∧
      "failed to execute process" = "failed to execute process") ∧
    (uenvSpawnFail.spawn = none ∧
      "failed to execute process" = "failed to execute process") :=
  ⟨rfl, rfl,
    (errors_returned_except_spawn hashId ⟨"foo", "0.1.0"⟩ "aa" "QmRoot" "/reg"
      envSpawnFail uenvSpawnFail "failed to execute process"
      "failed to execute process").1 rfl,
    (errors_returned_except_spawn hashId ⟨"foo", "0.1.0"⟩ "aa" "QmRoot" "/reg"
      envSpawnFail uenvSpawnFail "failed to execute process"
      "failed to execute process").2 rfl⟩

theorem download_uppercase_checksum_fails_witness :
    envFreshDemo.spawn = some ⟨[171], true, 0⟩ ∧
    ('A' ∈ "AB".data ∧ 'A' ∈ UPPER_HEX) ∧
    "AB".data.map Char.toLower = (toHex (hashId [171])).data ∧
    ((download hashId pkgSerde "AB" "QmRoot" "/reg" envFreshDemo).outcome =
        DlOutcome.err ("failed to verify the checksum of `" ++ pkgDisplay pkgSerde ++ "`") ∧
      (download hashId pkgSerde "AB" "QmRoot" "/reg" envFreshDemo).checksumChecked =
        true) :=
  ⟨rfl, ⟨by decide, by decide⟩, by decide,
    download_uppercase_checksum_fails hashId pkgSerde "AB" "QmRoot" "/reg"
      envFreshDemo ⟨[171], true, 0⟩ (Or.inl rfl) rfl rfl rfl rfl rfl rfl
      'A' (by decide) (by decide) (by decide)⟩
